import Mathlib

/-!
Shallow embedding of `src/migrate_tool.py` (migration engine of the
migrate_tool repository): Python `repr`-based value serialization, the CSV
reader, the per-format converters `migrate_csv` / `migrate_json`, the
version allocator and the `migrate` orchestrator, together with theorems
settling the specification claims about them.
-/

namespace MigrateTool

/-! ## Python repr on strings (value serialization, `repr(cell)`) -/

/-- Quote character CPython `repr` picks for a string: a single quote, unless
the string contains a single quote and no double quote (then a double quote).
-/
def pyQuoteChar (s : String) : Char :=
  if s.toList.contains '\'' && !(s.toList.contains '"') then '"' else '\''

/-- Escaping of one character inside a `repr` literal with delimiter `q`:
a backslash or the delimiter is preceded by a backslash, any other character
is emitted verbatim. This embeds CPython `repr` for strings of printable
characters (the hex escapes `repr` uses for control characters are outside
the model; no claim exercises them). -/
def pyEscapeChar (q c : Char) : List Char :=
  if c = '\\' ∨ c = q then ['\\', c] else [c]

/-- Body of the `repr` literal: every character escaped per `pyEscapeChar`. -/
def pyReprChars (q : Char) (cs : List Char) : List Char :=
  (cs.map (pyEscapeChar q)).flatten

/-- Embedding of Python `repr` on a string: delimiter, escaped body,
delimiter. -/
def pyReprStr (s : String) : String :=
  String.mk ((pyQuoteChar s :: pyReprChars (pyQuoteChar s) s.toList) ++ [pyQuoteChar s])

/-- Scalar values `json.load` can produce for the flat objects this tool
consumes (floats are not exercised by any claim and are left out). -/
inductive JValue where
  | jstr : String → JValue
  | jint : Int → JValue
  | jbool : Bool → JValue
  | jnull : JValue
deriving DecidableEq, Repr

/-- Embedding of Python `repr` on such a scalar: strings via `pyReprStr`,
integers as decimal text, booleans as `True`/`False`, `None` literally. -/
def pyRepr : JValue → String
  | JValue.jstr s => pyReprStr s
  | JValue.jint n => toString n
  | JValue.jbool b => if b then "True" else "False"
  | JValue.jnull => "None"

/-! ## Statement generator -/

/-- Embedding of the f-string
`INSERT INTO my_table ({cols}) VALUES ({vals});` built at
`src/migrate_tool.py:153` (and its copies at lines 163, 175, 188), where
`cols` and `vals` are comma-joined. The trailing newline of the written line
is modelled by keeping one list entry per written line. -/
def insertStatement (columns : List String) (values : List String) : String :=
  "INSERT INTO my_table (" ++ String.intercalate ", " columns ++
    ") VALUES (" ++ String.intercalate ", " values ++ ");"

/-! ## CSV reader (`csv.reader` with the default dialect) -/

/-- Parse state of `csv.reader`: in plain (unquoted) text, inside a
double-quoted field, or just past a `"` met inside a quoted field (which a
second `"` turns into a literal quote, anything else closes the field). -/
inductive CsvState where
  | plain
  | quoted
  | quoteQuoted
deriving DecidableEq, Repr

/-- State machine of `csv.reader` restricted to the default dialect features
the tool meets: comma delimiter, double-quote quoting with `""` as an escaped
quote, `\n` as the row separator, a blank line giving an empty record and a
trailing newline giving no extra record. `field` is the cell being built,
`started` whether the current record has seen any cell content or quote. -/
def csvParseGo (st : CsvState) (started : Bool) (field : String) (row : List String)
    (rows : List (List String)) : List Char → List (List String)
  | [] =>
    if started || !row.isEmpty || !field.isEmpty then rows ++ [row ++ [field]] else rows
  | c :: cs =>
    match st with
    | CsvState.quoted =>
      if c = '"' then csvParseGo CsvState.quoteQuoted started field row rows cs
      else csvParseGo CsvState.quoted started (field.push c) row rows cs
    | CsvState.quoteQuoted =>
      if c = '"' then csvParseGo CsvState.quoted started (field.push '"') row rows cs
      else if c = ',' then csvParseGo CsvState.plain false "" (row ++ [field]) rows cs
      else if c = '\n' then
        csvParseGo CsvState.plain false "" []
          (rows ++ [if started || !row.isEmpty || !field.isEmpty then row ++ [field] else []]) cs
      else csvParseGo CsvState.plain started (field.push c) row rows cs
    | CsvState.plain =>
      if c = ',' then csvParseGo CsvState.plain false "" (row ++ [field]) rows cs
      else if c = '\n' then
        csvParseGo CsvState.plain false "" []
          (rows ++ [if started || !row.isEmpty || !field.isEmpty then row ++ [field] else []]) cs
      else if c = '"' then csvParseGo CsvState.quoted true field row rows cs
      else csvParseGo CsvState.plain true (field.push c) row rows cs

/-- Embedding of `list(csv.reader(open(path)))` on the file's text. -/
def csvParse (s : String) : List (List String) :=
  csvParseGo CsvState.plain false "" [] [] s.toList

/-! ## Per-format converters -/

/-- Python exception surfaced by the converters: the `IndexError` that
`rows[0]` raises on an empty row list (`src/migrate_tool.py:151`). -/
inductive PyError where
  | indexError : PyError
deriving DecidableEq, Repr

/-- Outcome of `migrate_csv`: whether `open(new_file_path, "w")` ran (it
creates/truncates the output file), the lines written, and the exception
escaping the function, if any. -/
structure CsvMigrationResult where
  outputCreated : Bool
  outputLines : List String
  error : Option PyError
deriving DecidableEq, Repr

/-- Embedding of `migrate_csv` (`src/migrate_tool.py:145-154`) on the parsed
rows: the output file is opened for writing first, then `rows[0]` is the
column list — an `IndexError` when there are no rows at all — and each later
row becomes one insert statement with every cell passed through `repr`. -/
def migrate_csv (rows : List (List String)) : CsvMigrationResult :=
  match rows with
  | [] => { outputCreated := true, outputLines := [], error := some PyError.indexError }
  | columns :: dataRows =>
    { outputCreated := true
      outputLines := dataRows.map (fun row => insertStatement columns (row.map pyReprStr))
      error := none }

/-- Embedding of `migrate_json` (`src/migrate_tool.py:167-176`) on the parsed
top-level array: each object (an insertion-ordered key/value list, as Python
dicts are) yields one insert statement from its own keys and its own values.
-/
def migrate_json (entries : List (List (String × JValue))) : List String :=
  entries.map (fun entry =>
    insertStatement (entry.map Prod.fst) (entry.map (fun kv => pyRepr kv.2)))

/-! ## Version allocator -/

/-- Embedding of `str(n).zfill(3)`. -/
def pad3 (n : Nat) : String :=
  let s := toString n
  if s.length < 3 then String.mk (List.replicate (3 - s.length) '0') ++ s else s

/-- Version folder name `f"v{str(version).zfill(3)}"`. -/
def versionName (n : Nat) : String := "v" ++ pad3 n

/-- Loop body of the allocator (`src/migrate_tool.py:90-95`): starting at
`n`, step past version numbers whose folder already exists. The Python loop
is unbounded; here it carries fuel, and `allocate` supplies enough fuel for
the loop to reach a free number (see `allocGo_not_mem`). -/
def allocGo (existing : Finset Nat) : Nat → Nat → Nat
  | 0, n => n
  | fuel + 1, n => if n ∈ existing then allocGo existing fuel (n + 1) else n

/-- Version number the allocator settles on, given the set of version numbers
whose folders already exist under `root/type_tag/`: the scan starts at 1 and
increments while the folder exists. -/
def allocate (existing : Finset Nat) : Nat :=
  allocGo existing (existing.card + 1) 1

/-! ## Orchestrator (`migrate`, `src/migrate_tool.py:79-142`) -/

/-- Embedding of `str.lower` (ASCII, which covers every extension the
dispatch compares against). -/
def pyLower (s : String) : String := String.mk (s.toList.map Char.toLower)

/-- Embedding of `str.endswith`. -/
def pyEndsWith (s suffix : String) : Bool :=
  List.isSuffixOf suffix.toList s.toList

/-- Embedding of the slice `s[1:]` on a string. -/
def pyDrop1 (s : String) : String :=
  String.mk (s.toList.drop 1)

/-- Index of the last `.` in a character list, when there is one. -/
def rfindDot : List Char → Option Nat
  | [] => none
  | c :: cs =>
    match rfindDot cs with
    | some i => some (i + 1)
    | none => if c = '.' then some 0 else none

/-- Embedding of `os.path.splitext(basename)[0]`: the part before the last
dot, except that a name whose characters before that dot are all dots (such
as `.bashrc`) has no extension and is returned whole. -/
def splitextStem (name : String) : String :=
  let cs := name.toList
  match rfindDot cs with
  | none => name
  | some i => if (cs.take i).any (fun c => c ≠ '.') then String.mk (cs.take i) else name

/-- The four source formats the dispatch chain at
`src/migrate_tool.py:119-126` recognises. -/
inductive SourceFormat where
  | csv
  | xlsx
  | json
  | xml
deriving DecidableEq, Repr

/-- Embedding of the dispatch chain: the lowercased source file path is
tested with `endswith` against `.csv`, `.xlsx`, `.json`, `.xml` in that
order; no branch matches any other extension (and then `migrate` runs no
converter at all). -/
def dispatchFormat (filepath : String) : Option SourceFormat :=
  let lp := pyLower filepath
  if pyEndsWith lp ".csv" then some SourceFormat.csv
  else if pyEndsWith lp ".xlsx" then some SourceFormat.xlsx
  else if pyEndsWith lp ".json" then some SourceFormat.json
  else if pyEndsWith lp ".xml" then some SourceFormat.xml
  else none

/-- File-system effects `migrate` performs, in program order. -/
inductive FsEvent where
  | mkdir : String → FsEvent
  | copyFile : String → String → FsEvent
  | writeFile : String → FsEvent
deriving DecidableEq, Repr

/-- Whether an event is a directory creation. -/
def FsEvent.isMkdir : FsEvent → Bool
  | FsEvent.mkdir _ => true
  | _ => false

/-- Input of one `migrate` call: the source file's directory and basename
(`filepath = sourceDir ++ "/" ++ sourceName`), the export extension chosen
in the GUI (`.db` or `.sql`), the set of version numbers already present
under `migrations/<type>/`, and the source file's text. -/
structure MigrateInput where
  sourceDir : String
  sourceName : String
  exportExt : String
  existingVersions : Finset Nat
  content : String

/-- Observable outcome of one `migrate` call: every path the run builds, the
copied bytes, which converter the dispatch picked, whether and with which
lines the data file was produced, the exception (if one escaped a converter,
aborting the log write and the published label), and the ordered trace of
file-system effects. `dataFileLines` is `some` only for the CSV converter,
whose content path is the one the claims exercise; the spreadsheet, JSON and
markup converters are modelled at function level (`migrate_json`) and their
orchestration here records only the dispatch and the write event. -/
structure MigrateResult where
  filepath : String
  typeFolderPath : String
  version : Nat
  versionFolderPath : String
  dataFolderPath : String
  sourceFolderPath : String
  logFolderPath : String
  sourceCopyPath : String
  sourceCopyContent : String
  dataFilePath : String
  logFilePath : String
  handler : Option SourceFormat
  dataFileCreated : Bool
  dataFileLines : Option (List String)
  convError : Option PyError
  logWritten : Bool
  published : Bool
  events : List FsEvent

/-- Embedding of `migrate` (`src/migrate_tool.py:79-142`): build
`migrations/<exportExt without dot>/`, scan for the first free `v###`,
create it and its `data`, `source`, `log` children, copy the source file
verbatim, dispatch on the source file's extension to a converter writing
`data/<stem>_migration<exportExt>`, then (when no exception escaped) write
`log/migration_log.txt` and report the file published. A source extension
outside the four matches no dispatch branch: no converter runs, no data file
is opened, and the run still writes its log and reports published. -/
def migrate (inp : MigrateInput) : MigrateResult :=
  let filepath := inp.sourceDir ++ "/" ++ inp.sourceName
  let migrationRoot := inp.sourceDir ++ "/migrations"
  let typeFolder := pyDrop1 inp.exportExt
  let typeFolderPath := migrationRoot ++ "/" ++ typeFolder
  let version := allocate inp.existingVersions
  let versionFolderPath := typeFolderPath ++ "/" ++ versionName version
  let dataFolderPath := versionFolderPath ++ "/data"
  let sourceFolderPath := versionFolderPath ++ "/source"
  let logFolderPath := versionFolderPath ++ "/log"
  let stem := splitextStem inp.sourceName
  let sourceCopyPath := sourceFolderPath ++ "/" ++ inp.sourceName
  let dataFilePath := dataFolderPath ++ "/" ++ stem ++ "_migration" ++ inp.exportExt
  let logFilePath := logFolderPath ++ "/migration_log.txt"
  let handler := dispatchFormat filepath
  let csvRun : Option CsvMigrationResult :=
    if handler = some SourceFormat.csv then some (migrate_csv (csvParse inp.content))
    else none
  let convError : Option PyError :=
    match csvRun with
    | some r => r.error
    | none => none
  let dataFileCreated : Bool :=
    match handler, csvRun with
    | none, _ => false
    | some _, some r => r.outputCreated
    | some _, none => true
  let dataFileLines : Option (List String) :=
    match csvRun with
    | some r => some r.outputLines
    | none => none
  let convEvents : List FsEvent :=
    match handler with
    | none => []
    | some _ => [FsEvent.writeFile dataFilePath]
  let logEvents : List FsEvent :=
    if convError = none then [FsEvent.writeFile logFilePath] else []
  { filepath := filepath
    typeFolderPath := typeFolderPath
    version := version
    versionFolderPath := versionFolderPath
    dataFolderPath := dataFolderPath
    sourceFolderPath := sourceFolderPath
    logFolderPath := logFolderPath
    sourceCopyPath := sourceCopyPath
    sourceCopyContent := inp.content
    dataFilePath := dataFilePath
    logFilePath := logFilePath
    handler := handler
    dataFileCreated := dataFileCreated
    dataFileLines := dataFileLines
    convError := convError
    logWritten := convError.isNone
    published := convError.isNone
    events :=
      FsEvent.mkdir migrationRoot :: FsEvent.mkdir typeFolderPath ::
        FsEvent.mkdir versionFolderPath :: FsEvent.mkdir dataFolderPath ::
        FsEvent.mkdir sourceFolderPath :: FsEvent.mkdir logFolderPath ::
        FsEvent.copyFile filepath sourceCopyPath :: (convEvents ++ logEvents) }

/-! ## Reading back a Python string literal (for the round-trip claim) -/

/-- Reading of the body of a Python string literal delimited by `q`, per
Python's own literal rules for what `repr` emits: an unescaped delimiter must
close the literal exactly at the end, a backslash introduces an escape of a
backslash or either quote, every other character stands for itself. Returns
`none` for text that is not one complete literal body. -/
def pyParseBody (q : Char) : List Char → Option (List Char)
  | [] => none
  | c :: cs =>
    if c = q then (if cs.isEmpty then some [] else none)
    else if c = '\\' then
      match cs with
      | [] => none
      | e :: cs2 =>
        if e = '\\' ∨ e = '\'' ∨ e = '"' then (pyParseBody q cs2).map (fun r => e :: r)
        else none
    else (pyParseBody q cs).map (fun r => c :: r)

/-- Reading of one complete Python string literal: a quote character, a body,
the matching closing quote at the very end. -/
def pyParseStrLit (s : String) : Option String :=
  match s.toList with
  | [] => none
  | q :: rest =>
    if q = '\'' ∨ q = '"' then (pyParseBody q rest).map String.mk else none

end MigrateTool

namespace MigrateTool

/-! ## Helper lemmas -/

/-- The allocator loop, given enough fuel to reach a free number, stops on a
number whose folder does not exist. -/
theorem allocGo_not_mem (existing : Finset Nat) :
    ∀ (fuel n : Nat), (∃ k, k ≤ fuel ∧ n + k ∉ existing) →
      allocGo existing fuel n ∉ existing := by
  intro fuel
  induction fuel with
  | zero =>
    intro n h
    obtain ⟨k, hk, hfree⟩ := h
    have hk0 : k = 0 := Nat.le_zero.mp hk
    subst hk0
    simp only [allocGo]
    exact Nat.add_zero n ▸ hfree
  | succ f ih =>
    intro n h
    obtain ⟨k, hk, hfree⟩ := h
    by_cases hn : n ∈ existing
    · have hstep : allocGo existing (f + 1) n = allocGo existing f (n + 1) := by
        simp [allocGo, hn]
      rw [hstep]
      apply ih
      have hkpos : k ≠ 0 := by
        intro h0
        subst h0
        simp only [Nat.add_zero] at hfree
        exact hfree hn
      refine ⟨k - 1, by omega, ?_⟩
      have harith : n + 1 + (k - 1) = n + k := by omega
      rw [harith]
      exact hfree
    · simpa [allocGo, hn] using hn

/-- Reading back the escaped body (and closing delimiter) of a `repr`
literal recovers the original characters. -/
theorem pyParseBody_roundtrip (q : Char) (hq : q = '\'' ∨ q = '"') :
    ∀ cs : List Char, pyParseBody q (pyReprChars q cs ++ [q]) = some cs := by
  have hbs : ¬ (('\\' : Char) = q) := by
    rcases hq with h | h <;> subst h <;> decide
  intro cs
  induction cs with
  | nil => simp [pyReprChars, pyParseBody]
  | cons c cs ih =>
    by_cases hc : c = '\\' ∨ c = q
    · have hrep : pyReprChars q (c :: cs) = '\\' :: c :: pyReprChars q cs := by
        simp [pyReprChars, pyEscapeChar, hc]
      have hesc : c = '\\' ∨ c = '\'' ∨ c = '"' := by
        rcases hc with h | h
        · exact Or.inl h
        · rcases hq with h2 | h2 <;> subst h2
          · exact Or.inr (Or.inl h)
          · exact Or.inr (Or.inr h)
      rw [hrep]
      simp [pyParseBody, hbs, hesc, ih]
    · push_neg at hc
      have hrep : pyReprChars q (c :: cs) = c :: pyReprChars q cs := by
        simp [pyReprChars, pyEscapeChar, hc.1, hc.2]
      rw [hrep]
      rw [pyParseBody.eq_def]
      simp [hc.1, hc.2, ih]

end MigrateTool

namespace MigrateTool

/-! ## Claim C1 -/

/-- Claim C1, counterexample: on `a.csv` with content
`id,name\n1,Ann\n2,"O'Brien"\n` and export extension `.sql` in a fresh
directory, the data file does not contain the two lines the claim states —
the code passes every CSV cell (text) through `repr`, so `1` and `2` are
written as the quoted strings `'1'` and `'2'`, not as unquoted numbers. -/
theorem claim_C1_counterexample :
    (migrate ⟨"/work", "a.csv", ".sql", ∅, "id,name\n1,Ann\n2,\"O'Brien\"\n"⟩).dataFileLines ≠
      some ["INSERT INTO my_table (id, name) VALUES (1, 'Ann');",
        "INSERT INTO my_table (id, name) VALUES (2, \"O'Brien\");"] := by
  decide

/-- Claim C1, amended: on `a.csv` with content `id,name\n1,Ann\n2,"O'Brien"\n`
and export extension `.sql` in a fresh directory, `migrate` writes
`migrations/sql/v001/data/a_migration.sql` containing exactly the lines
`INSERT INTO my_table (id, name) VALUES ('1', 'Ann');` and
`INSERT INTO my_table (id, name) VALUES ('2', "O'Brien");` (every CSV cell
is serialized by `repr` as a quoted string), and
`migrations/sql/v001/source/a.csv` is byte-identical to the input. -/
theorem claim_C1 :
    (migrate ⟨"/work", "a.csv", ".sql", ∅, "id,name\n1,Ann\n2,\"O'Brien\"\n"⟩).dataFilePath =
        "/work/migrations/sql/v001/data/a_migration.sql" ∧
    (migrate ⟨"/work", "a.csv", ".sql", ∅, "id,name\n1,Ann\n2,\"O'Brien\"\n"⟩).dataFileLines =
      some ["INSERT INTO my_table (id, name) VALUES ('1', 'Ann');",
        "INSERT INTO my_table (id, name) VALUES ('2', \"O'Brien\");"] ∧
    (migrate ⟨"/work", "a.csv", ".sql", ∅, "id,name\n1,Ann\n2,\"O'Brien\"\n"⟩).sourceCopyPath =
        "/work/migrations/sql/v001/source/a.csv" ∧
    (migrate ⟨"/work", "a.csv", ".sql", ∅, "id,name\n1,Ann\n2,\"O'Brien\"\n"⟩).sourceCopyContent =
        "id,name\n1,Ann\n2,\"O'Brien\"\n" ∧
    (migrate ⟨"/work", "a.csv", ".sql", ∅, "id,name\n1,Ann\n2,\"O'Brien\"\n"⟩).logWritten = true := by
  refine ⟨?_, ?_, ?_, ?_, ?_⟩ <;> decide

/-! ## Claim C2 -/

/-- Claim C2, counterexample: for the source file `notes.txt` (extension not
one of the four), `migrate` surfaces no error at all, writes the log and
reports the run published — the dispatch chain simply matches no branch. -/
theorem claim_C2_counterexample :
    (migrate ⟨"/work", "notes.txt", ".sql", ∅, "hello"⟩).convError = none ∧
    (migrate ⟨"/work", "notes.txt", ".sql", ∅, "hello"⟩).logWritten = true ∧
    (migrate ⟨"/work", "notes.txt", ".sql", ∅, "hello"⟩).published = true ∧
    (migrate ⟨"/work", "notes.txt", ".sql", ∅, "hello"⟩).dataFileCreated = false := by
  refine ⟨?_, ?_, ?_, ?_⟩ <;> decide

/-- Claim C2, amended: for every source file whose extension matches none of
csv, xlsx, json, xml, `migrate` performs a silent no-op conversion: no
converter runs and no data file is created, no error is raised, and the run
still writes its log and is reported as published. -/
theorem claim_C2 (inp : MigrateInput)
    (h : dispatchFormat (inp.sourceDir ++ "/" ++ inp.sourceName) = none) :
    (migrate inp).dataFileCreated = false ∧
    (migrate inp).dataFileLines = none ∧
    (migrate inp).convError = none ∧
    (migrate inp).logWritten = true ∧
    (migrate inp).published = true := by
  simp [migrate, h]

/-- Claim C2 witness: the amended claim at the concrete input `notes.txt`. -/
theorem claim_C2_witness :
    dispatchFormat ("/work" ++ "/" ++ "notes.txt") = none ∧
    ((migrate ⟨"/work", "notes.txt", ".sql", ∅, "hello"⟩).dataFileCreated = false ∧
     (migrate ⟨"/work", "notes.txt", ".sql", ∅, "hello"⟩).dataFileLines = none ∧
     (migrate ⟨"/work", "notes.txt", ".sql", ∅, "hello"⟩).convError = none ∧
     (migrate ⟨"/work", "notes.txt", ".sql", ∅, "hello"⟩).logWritten = true ∧
     (migrate ⟨"/work", "notes.txt", ".sql", ∅, "hello"⟩).published = true) :=
  ⟨by decide, claim_C2 ⟨"/work", "notes.txt", ".sql", ∅, "hello"⟩ (by decide)⟩

/-! ## Claim C3 -/

/-- Claim C3, counterexample: on an empty CSV file, the run does fail (with
an uncaught `IndexError`, not a typed `EmptySource`), but an output file is
created under `data/` — `open(new_file_path, "w")` runs before `rows[0]`
raises, so the claim's "no file is created under data/" is false. -/
theorem claim_C3_counterexample :
    (migrate ⟨"/work", "empty.csv", ".sql", ∅, ""⟩).dataFileCreated = true ∧
    (migrate ⟨"/work", "empty.csv", ".sql", ∅, ""⟩).dataFileLines = some [] ∧
    (migrate ⟨"/work", "empty.csv", ".sql", ∅, ""⟩).convError = some PyError.indexError ∧
    (migrate ⟨"/work", "empty.csv", ".sql", ∅, ""⟩).logWritten = false := by
  refine ⟨?_, ?_, ?_, ?_⟩ <;> decide

/-- Claim C3, amended: for every delimited-text (CSV) input file with zero
rows, migration fails with an uncaught `IndexError` (the code has no typed
`EmptySource`); the version folder from step 1 exists, and an empty output
file has already been created under `data/` before the failure; no log is
written and the run is not reported published. -/
theorem claim_C3 (inp : MigrateInput)
    (h1 : dispatchFormat (inp.sourceDir ++ "/" ++ inp.sourceName) = some SourceFormat.csv)
    (h2 : csvParse inp.content = []) :
    (migrate inp).convError = some PyError.indexError ∧
    (migrate inp).dataFileCreated = true ∧
    (migrate inp).dataFileLines = some [] ∧
    (migrate inp).logWritten = false ∧
    (migrate inp).published = false := by
  simp [migrate, h1, h2, migrate_csv]

/-- Claim C3 witness: the amended claim at the concrete empty `empty.csv`. -/
theorem claim_C3_witness :
    dispatchFormat ("/work" ++ "/" ++ "empty.csv") = some SourceFormat.csv ∧
    csvParse "" = [] ∧
    ((migrate ⟨"/work", "empty.csv", ".sql", ∅, ""⟩).convError = some PyError.indexError ∧
     (migrate ⟨"/work", "empty.csv", ".sql", ∅, ""⟩).dataFileCreated = true ∧
     (migrate ⟨"/work", "empty.csv", ".sql", ∅, ""⟩).dataFileLines = some [] ∧
     (migrate ⟨"/work", "empty.csv", ".sql", ∅, ""⟩).logWritten = false ∧
     (migrate ⟨"/work", "empty.csv", ".sql", ∅, ""⟩).published = false) :=
  ⟨by decide, by decide,
    claim_C3 ⟨"/work", "empty.csv", ".sql", ∅, ""⟩ (by decide) (by decide)⟩

end MigrateTool

namespace MigrateTool

/-! ## Claim C4 -/

/-- Claim C4: for every delimited-text input with one header row and N data
rows (each of the header's width — what a well-formed table is), the output
has exactly N lines, each an insert statement built from the header columns
and a serialized value list whose length equals the header's column count. -/
theorem claim_C4 (columns : List String) (dataRows : List (List String))
    (h : ∀ row ∈ dataRows, row.length = columns.length) :
    (migrate_csv (columns :: dataRows)).error = none ∧
    (migrate_csv (columns :: dataRows)).outputLines =
      dataRows.map (fun row => insertStatement columns (row.map pyReprStr)) ∧
    (migrate_csv (columns :: dataRows)).outputLines.length = dataRows.length ∧
    ∀ row ∈ dataRows, (row.map pyReprStr).length = columns.length := by
  refine ⟨rfl, rfl, ?_, ?_⟩
  · simp [migrate_csv]
  · intro row hrow
    simp [h row hrow]

/-- Claim C4 witness: the table with header `a, b` and the one data row
`1, 2`. -/
theorem claim_C4_witness :
    (∀ row ∈ [["1", "2"]], row.length = (["a", "b"] : List String).length) ∧
    ((migrate_csv (["a", "b"] :: [["1", "2"]])).error = none ∧
     (migrate_csv (["a", "b"] :: [["1", "2"]])).outputLines =
       [["1", "2"]].map (fun row => insertStatement ["a", "b"] (row.map pyReprStr)) ∧
     (migrate_csv (["a", "b"] :: [["1", "2"]])).outputLines.length = [["1", "2"]].length ∧
     ∀ row ∈ [["1", "2"]], (row.map pyReprStr).length = (["a", "b"] : List String).length) :=
  ⟨by decide, claim_C4 ["a", "b"] [["1", "2"]] (by decide)⟩

/-! ## Claim C5 -/

/-- Claim C5: on a root/type-tag pair with no existing versions, the first
allocation yields version 1 (`v001`); with that folder present, the next
allocation yields version 2 (`v002`) — `v001` is never allocated twice. -/
theorem claim_C5 :
    allocate (∅ : Finset Nat) = 1 ∧
    allocate ({1} : Finset Nat) = 2 ∧
    versionName (allocate (∅ : Finset Nat)) = "v001" ∧
    versionName (allocate ({1} : Finset Nat)) = "v002" := by
  refine ⟨?_, ?_, ?_, ?_⟩ <;> decide

/-! ## Claim C6 -/

/-- Claim C6: the allocator never selects a version number whose folder
already exists, and every `migrate` run's effect trace starts with the six
directory creations (migration root, type folder, version folder, and its
`data`, `source`, `log` children) followed by the source copy, with no
directory creation afterwards — so the version directory and its three
children exist before the copy and before any file write. -/
theorem claim_C6 :
    (∀ existing : Finset Nat, allocate existing ∉ existing) ∧
    (∀ inp : MigrateInput,
      (migrate inp).events =
        FsEvent.mkdir (inp.sourceDir ++ "/migrations") ::
        FsEvent.mkdir (migrate inp).typeFolderPath ::
        FsEvent.mkdir (migrate inp).versionFolderPath ::
        FsEvent.mkdir (migrate inp).dataFolderPath ::
        FsEvent.mkdir (migrate inp).sourceFolderPath ::
        FsEvent.mkdir (migrate inp).logFolderPath ::
        FsEvent.copyFile (migrate inp).filepath (migrate inp).sourceCopyPath ::
          ((migrate inp).events.drop 7) ∧
      ∀ e ∈ (migrate inp).events.drop 7, e.isMkdir = false) := by
  constructor
  · intro existing
    apply allocGo_not_mem
    by_contra hall
    push_neg at hall
    have hsub : Finset.Icc 1 (existing.card + 2) ⊆ existing := by
      intro x hx
      rw [Finset.mem_Icc] at hx
      have hx2 : 1 + (x - 1) = x := by omega
      have hmem := hall (x - 1) (by omega)
      rwa [hx2] at hmem
    have hcard := Finset.card_le_card hsub
    rw [Nat.card_Icc] at hcard
    omega
  · intro inp
    constructor
    · cases hd : dispatchFormat (inp.sourceDir ++ "/" ++ inp.sourceName) <;>
        simp [migrate, hd]
    · intro e he
      cases hd : dispatchFormat (inp.sourceDir ++ "/" ++ inp.sourceName) <;>
        simp [migrate, hd] at he
      · rcases he with ⟨_, rfl⟩
        rfl
      · rcases he with rfl | ⟨_, rfl⟩ <;> rfl

/-! ## Claim C7 -/

/-- Claim C7: a structured-document (JSON) input of two records with
different key sets produces two insert statements, each built from that
record's own keys and values, whose column lists differ — no schema
unification and no dropped keys. -/
theorem claim_C7 (e1 e2 : List (String × JValue))
    (h : e1.map Prod.fst ≠ e2.map Prod.fst) :
    migrate_json [e1, e2] =
      [insertStatement (e1.map Prod.fst) (e1.map (fun kv => pyRepr kv.2)),
       insertStatement (e2.map Prod.fst) (e2.map (fun kv => pyRepr kv.2))] ∧
    e1.map Prod.fst ≠ e2.map Prod.fst :=
  ⟨rfl, h⟩

/-- Claim C7 witness: the records `{id: 1}` and `{name: "Ann", age: 3}`. -/
theorem claim_C7_witness :
    ([("id", JValue.jint 1)].map Prod.fst ≠
      [("name", JValue.jstr "Ann"), ("age", JValue.jint 3)].map Prod.fst) ∧
    (migrate_json [[("id", JValue.jint 1)],
        [("name", JValue.jstr "Ann"), ("age", JValue.jint 3)]] =
      [insertStatement ([("id", JValue.jint 1)].map Prod.fst)
          ([("id", JValue.jint 1)].map (fun kv => pyRepr kv.2)),
       insertStatement ([("name", JValue.jstr "Ann"), ("age", JValue.jint 3)].map Prod.fst)
          ([("name", JValue.jstr "Ann"), ("age", JValue.jint 3)].map (fun kv => pyRepr kv.2))] ∧
     [("id", JValue.jint 1)].map Prod.fst ≠
       [("name", JValue.jstr "Ann"), ("age", JValue.jint 3)].map Prod.fst) :=
  ⟨by decide, claim_C7 [("id", JValue.jint 1)]
    [("name", JValue.jstr "Ann"), ("age", JValue.jint 3)] (by decide)⟩

end MigrateTool

namespace MigrateTool

/-! ## Claim C8 -/

/-- Claim C8: the converter is chosen by the source file's extension (the
dispatch only reads the lowercased source path), not by the export
extension — changing the export extension never changes the chosen handler —
while the export extension only names the type-tag folder (its text without
the leading dot) and the output file `data/<stem>_migration<exportExt>`. -/
theorem claim_C8 (inp : MigrateInput) (otherExt : String) :
    (migrate inp).handler = dispatchFormat (inp.sourceDir ++ "/" ++ inp.sourceName) ∧
    (migrate { inp with exportExt := otherExt }).handler = (migrate inp).handler ∧
    (migrate inp).typeFolderPath =
      inp.sourceDir ++ "/migrations" ++ "/" ++ pyDrop1 inp.exportExt ∧
    (migrate inp).dataFilePath =
      (migrate inp).versionFolderPath ++ "/data" ++ "/" ++
        splitextStem inp.sourceName ++ "_migration" ++ inp.exportExt :=
  ⟨rfl, rfl, rfl, rfl⟩

/-! ## Claim C9 -/

/-- Claim C9: serializing any string containing an embedded quote character
through the `repr`-based quoting and re-reading the result under Python's
own string-literal rules recovers the original string exactly. -/
theorem claim_C9 (s : String) (_h : '\'' ∈ s.toList ∨ '"' ∈ s.toList) :
    pyParseStrLit (pyReprStr s) = some s := by
  have hq : pyQuoteChar s = '\'' ∨ pyQuoteChar s = '"' := by
    unfold pyQuoteChar
    split
    · exact Or.inr rfl
    · exact Or.inl rfl
  unfold pyReprStr pyParseStrLit
  rw [show (String.mk ((pyQuoteChar s :: pyReprChars (pyQuoteChar s) s.toList) ++
      [pyQuoteChar s])).toList =
      pyQuoteChar s :: (pyReprChars (pyQuoteChar s) s.toList ++ [pyQuoteChar s]) from rfl]
  simp only []
  rw [if_pos hq, pyParseBody_roundtrip (pyQuoteChar s) hq s.toList]
  simp [String.toList]

/-- Claim C9 witness: the string `O'Brien` (embedded single quote) round
trips through serialization and literal re-parsing. -/
theorem claim_C9_witness :
    ('\'' ∈ "O'Brien".toList ∨ '"' ∈ "O'Brien".toList) ∧
    pyParseStrLit (pyReprStr "O'Brien") = some "O'Brien" :=
  ⟨by decide, claim_C9 "O'Brien" (by decide)⟩

/-! ## Claim C10 -/

/-- Claim C10: a delimited-text input consisting of exactly one row (the
header, zero data rows) migrates without error: the output file under
`data/` is created and holds zero insert statements, the log is written and
the run is reported published. -/
theorem claim_C10 (inp : MigrateInput) (header : List String)
    (h1 : dispatchFormat (inp.sourceDir ++ "/" ++ inp.sourceName) = some SourceFormat.csv)
    (h2 : csvParse inp.content = [header]) :
    (migrate inp).convError = none ∧
    (migrate inp).dataFileCreated = true ∧
    (migrate inp).dataFileLines = some [] ∧
    (migrate inp).logWritten = true ∧
    (migrate inp).published = true := by
  simp [migrate, h1, h2, migrate_csv]

/-- Claim C10 witness: the one-row CSV file `id,name\n`. -/
theorem claim_C10_witness :
    dispatchFormat ("/work" ++ "/" ++ "h.csv") = some SourceFormat.csv ∧
    csvParse "id,name\n" = [["id", "name"]] ∧
    ((migrate ⟨"/work", "h.csv", ".sql", ∅, "id,name\n"⟩).convError = none ∧
     (migrate ⟨"/work", "h.csv", ".sql", ∅, "id,name\n"⟩).dataFileCreated = true ∧
     (migrate ⟨"/work", "h.csv", ".sql", ∅, "id,name\n"⟩).dataFileLines = some [] ∧
     (migrate ⟨"/work", "h.csv", ".sql", ∅, "id,name\n"⟩).logWritten = true ∧
     (migrate ⟨"/work", "h.csv", ".sql", ∅, "id,name\n"⟩).published = true) :=
  ⟨by decide, by decide,
    claim_C10 ⟨"/work", "h.csv", ".sql", ∅, "id,name\n"⟩ ["id", "name"]
      (by decide) (by decide)⟩

end MigrateTool
